import Mathlib

/-!
Verification of the gesture-recognition-to-action pipeline of the
motion-edu flashcard application.

The definitions below are a shallow embedding of the TypeScript source:
  - the threshold classifier `inferGestureFromLandmarks` and its helpers
    (the cv gesture engine),
  - the temporal smoothing buffer and majority vote (CameraFeed),
  - the calibration threshold derivation (CalibrationModal), and
  - the unified action dispatcher.

JavaScript numbers are modelled as exact rationals (the properties at stake
are order and branch comparisons); timestamps (Date.now() milliseconds) are
modelled as integers.  Values read from the browser key-value store
(sensitivity, calibration profile) are passed as explicit parameters, since
the store is an external collaborator of the core.
-/

namespace MotionEdu

/-- The four gesture states of the pipeline. -/
inductive GestureType where
  | REST
  | NEXT
  | PREV
  | SELECT
deriving DecidableEq, Repr, Fintype

open GestureType

/-- A single pose landmark: normalized planar coordinates with optional
depth and visibility confidence. -/
structure PoseLandmark where
  x : ℚ
  y : ℚ
  z : Option ℚ := none
  visibility : Option ℚ := none
deriving DecidableEq, Repr

/-- Minimum visibility confidence for a landmark to be considered. -/
def MIN_VISIBILITY : ℚ := 1/2

/-- MediaPipe landmark index of the left shoulder. -/
def LEFT_SHOULDER : ℕ := 11
/-- MediaPipe landmark index of the right shoulder. -/
def RIGHT_SHOULDER : ℕ := 12
/-- MediaPipe landmark index of the left wrist. -/
def LEFT_WRIST : ℕ := 15
/-- MediaPipe landmark index of the right wrist. -/
def RIGHT_WRIST : ℕ := 16

/-- Default threshold: minimum horizontal distance for NEXT. -/
def NEXT_DX_LEFT_MIN : ℚ := 25/1000
/-- Default threshold: maximum vertical tolerance for NEXT. -/
def NEXT_ABS_DY_LEFT_MAX : ℚ := 31/100
/-- Default threshold: minimum horizontal distance for PREV. -/
def PREV_DX_RIGHT_MIN : ℚ := -51/1000
/-- Default threshold: maximum vertical tolerance for PREV. -/
def PREV_ABS_DY_RIGHT_MAX : ℚ := 334/1000
/-- Default threshold: both wrists above shoulders for SELECT. -/
def SELECT_DY_THRESHOLD : ℚ := -334/1000

/-- The five thresholds consumed by the classifier. -/
structure GestureThresholds where
  prevDxRightMin : ℚ
  prevAbsDyRightMax : ℚ
  nextDxLeftMin : ℚ
  nextAbsDyLeftMax : ℚ
  selectDyThreshold : ℚ
deriving DecidableEq, Repr

/-- The built-in default threshold profile. -/
def defaultThresholds : GestureThresholds :=
  { prevDxRightMin := PREV_DX_RIGHT_MIN
    prevAbsDyRightMax := PREV_ABS_DY_RIGHT_MAX
    nextDxLeftMin := NEXT_DX_LEFT_MIN
    nextAbsDyLeftMax := NEXT_ABS_DY_LEFT_MAX
    selectDyThreshold := SELECT_DY_THRESHOLD }

/-- Per-user calibration profile persisted by the calibration manager. -/
structure CalibrationThresholds where
  rightHandUpDelta : ℚ
  leftHandUpDelta : ℚ
  bothHandsUpDelta : ℚ
  calibrated : Bool
deriving DecidableEq, Repr

/-- Override the default thresholds with a calibrated profile, exactly as the
classifier does when a stored profile has calibrated set: the SELECT threshold
becomes 80% of the negated both-hands delta, and the NEXT/PREV vertical
tolerances become 150% of the corresponding hand-up deltas, each override
applied only when the stored delta is positive. -/
def applyCalibration (base : GestureThresholds)
    (calibration : Option CalibrationThresholds) : GestureThresholds :=
  match calibration with
  | some cal =>
      if cal.calibrated then
        { prevDxRightMin := base.prevDxRightMin
          prevAbsDyRightMax :=
            if cal.rightHandUpDelta > 0 then cal.rightHandUpDelta * (3/2)
            else base.prevAbsDyRightMax
          nextDxLeftMin := base.nextDxLeftMin
          nextAbsDyLeftMax :=
            if cal.leftHandUpDelta > 0 then cal.leftHandUpDelta * (3/2)
            else base.nextAbsDyLeftMax
          selectDyThreshold :=
            if cal.bothHandsUpDelta > 0 then -cal.bothHandsUpDelta * (8/10)
            else base.selectDyThreshold }
      else base
  | none => base

/-- The sensitivity multiplier: 1.0 / max(0.01, sensitivityFactor). -/
def thresholdMultiplier (sensitivityFactor : ℚ) : ℚ :=
  1 / max (1/100) sensitivityFactor

/-- Scale every threshold by the sensitivity multiplier, exactly as the
classifier does before evaluation. -/
def adjustThresholds (t : GestureThresholds) (sensitivityFactor : ℚ) :
    GestureThresholds :=
  let m := thresholdMultiplier sensitivityFactor
  { prevDxRightMin := t.prevDxRightMin * m
    prevAbsDyRightMax := t.prevAbsDyRightMax * m
    nextDxLeftMin := t.nextDxLeftMin * m
    nextAbsDyLeftMax := t.nextAbsDyLeftMax * m
    selectDyThreshold := t.selectDyThreshold * m }

/-- The geometric feature vector derived from the four consumed landmarks. -/
structure GestureFeatures where
  dxRight : ℚ
  dxLeft : ℚ
  dyRight : ℚ
  dyLeft : ℚ
  absDyRight : ℚ
  absDyLeft : ℚ
deriving DecidableEq, Repr

/-- Horizontal and vertical wrist/shoulder offsets of a validated frame. -/
def extractFeatures (leftShoulder rightShoulder leftWrist rightWrist :
    PoseLandmark) : GestureFeatures :=
  { dxRight := rightWrist.x - rightShoulder.x
    dxLeft := leftShoulder.x - leftWrist.x
    dyRight := rightShoulder.y - rightWrist.y
    dyLeft := leftShoulder.y - leftWrist.y
    absDyRight := |rightWrist.y - rightShoulder.y|
    absDyLeft := |leftWrist.y - leftShoulder.y| }

/-- The rule ladder of the classifier: PREV, then NEXT, then SELECT, with
REST as the fallback. -/
def classify (f : GestureFeatures) (t : GestureThresholds) : GestureType :=
  if f.dxRight > t.prevDxRightMin ∧ f.absDyRight < t.prevAbsDyRightMax then
    PREV
  else if f.dxLeft > t.nextDxLeftMin ∧ f.absDyLeft < t.nextAbsDyLeftMax then
    NEXT
  else if f.dyRight < t.selectDyThreshold ∧ f.dyLeft < t.selectDyThreshold then
    SELECT
  else
    REST

/-- A landmark passes the visibility gate when its visibility is absent or at
least MIN_VISIBILITY. -/
def landmarkVisible (l : PoseLandmark) : Bool :=
  match l.visibility with
  | some v => decide (MIN_VISIBILITY ≤ v)
  | none => true

/-- The gesture classifier: validates the frame (length, presence and
visibility of the four consumed landmarks), extracts features, applies
calibration overrides and the sensitivity multiplier to the thresholds, and
runs the rule ladder.  Sensitivity and calibration, read from the key-value
store in the source, are explicit parameters here. -/
def inferGestureFromLandmarks (landmarks : List PoseLandmark)
    (sensitivityFactor : ℚ)
    (calibration : Option CalibrationThresholds) : GestureType :=
  if landmarks.length < 17 then REST
  else
    match landmarks[LEFT_SHOULDER]?, landmarks[RIGHT_SHOULDER]?,
        landmarks[LEFT_WRIST]?, landmarks[RIGHT_WRIST]? with
    | some ls, some rs, some lw, some rw =>
        if landmarkVisible ls && landmarkVisible rs &&
            landmarkVisible lw && landmarkVisible rw then
          classify (extractFeatures ls rs lw rw)
            (adjustThresholds (applyCalibration defaultThresholds calibration)
              sensitivityFactor)
        else REST
    | _, _, _, _ => REST

/-- A consumed landmark index is usable when the entry exists and passes the
visibility gate. -/
def consumedLandmarkOk (landmarks : List PoseLandmark) (i : ℕ) : Bool :=
  match landmarks[i]? with
  | some l => landmarkVisible l
  | none => false

/-- The four landmark indices consumed by the classifier. -/
def consumedIndices : List ℕ :=
  [LEFT_SHOULDER, RIGHT_SHOULDER, LEFT_WRIST, RIGHT_WRIST]

/-- A landmark at the frame centre with full visibility, used to pad concrete
test frames. -/
def neutralLandmark : PoseLandmark := ⟨1/2, 1/2, none, some 1⟩

/-- A concrete 17-entry frame: left wrist slightly left of the left shoulder
(dxLeft = 1/10), right wrist far left of the right shoulder
(dxRight = -8/10), all wrists at shoulder height. -/
def sensitivityDemoFrame : List PoseLandmark :=
  List.replicate 11 neutralLandmark ++
    [⟨6/10, 1/2, none, some 1⟩,
     ⟨9/10, 1/2, none, some 1⟩,
     neutralLandmark, neutralLandmark,
     ⟨5/10, 1/2, none, some 1⟩,
     ⟨1/10, 1/2, none, some 1⟩]

/-- The enumeration order REST, NEXT, PREV, SELECT used by the majority
vote's iteration over the count record. -/
def enumIndex : GestureType → ℕ
  | REST => 0
  | NEXT => 1
  | PREV => 2
  | SELECT => 3

/-- The list of all gesture states in the enumeration order of the count
record of the majority vote. -/
def enumOrder : List GestureType := [REST, NEXT, PREV, SELECT]

/-- The majority vote over the smoothing history: count each state's
occurrences and take the first state, in enumeration order, whose count
strictly exceeds the running maximum (initialised to REST with count 0);
empty histories yield none.  The reference-identity memoization wrapped
around this computation in the source caches exactly this function. -/
def computeMajorityGesture (history : List GestureType) : Option GestureType :=
  if history = [] then none
  else
    some (enumOrder.foldl
      (fun acc g =>
        if history.count g > acc.2 then (g, history.count g) else acc)
      (REST, 0)).1

/-- Maximum length of the temporal smoothing history. -/
def MAX_HISTORY_LENGTH : ℕ := 7
/-- Minimum history length before a majority vote is trusted. -/
def MIN_HISTORY_LENGTH : ℕ := 4

/-- The state of the temporal smoothing buffer: the bounded raw-gesture
history and the currently accepted stabilized gesture. -/
structure SmoothState where
  history : List GestureType
  current : GestureType
deriving DecidableEq, Repr

/-- The history update of one smoothing frame: append the raw classification
and evict from the front beyond MAX_HISTORY_LENGTH. -/
def pushHistory (h : List GestureType) (g : GestureType) : List GestureType :=
  let h1 := h ++ [g]
  if h1.length > MAX_HISTORY_LENGTH then h1.drop 1 else h1

/-- The emission decision of one smoothing frame: when at least
MIN_HISTORY_LENGTH entries are present and the majority differs from the
accepted gesture, the majority is emitted. -/
def smoothingEmission (s : SmoothState) (h2 : List GestureType) :
    Option GestureType :=
  if MIN_HISTORY_LENGTH ≤ h2.length then
    match computeMajorityGesture h2 with
    | some m => if m ≠ s.current then some m else none
    | none => none
  else none

/-- One frame of the temporal smoothing buffer: append the raw
classification, evict from the front beyond MAX_HISTORY_LENGTH, and when at
least MIN_HISTORY_LENGTH entries are present and the majority differs from
the accepted gesture, emit the majority and accept it. -/
def processRawGesture (s : SmoothState) (g : GestureType) :
    SmoothState × Option GestureType :=
  let h2 := pushHistory s.history g
  match smoothingEmission s h2 with
  | some m => (⟨h2, m⟩, some m)
  | none => (⟨h2, s.current⟩, none)

/-- Feed a list of raw classifications through the smoothing buffer,
collecting the emitted transitions in order. -/
def runSmoothing (s : SmoothState) :
    List GestureType → SmoothState × List GestureType
  | [] => (s, [])
  | g :: gs =>
    let step := processRawGesture s g
    let rest := runSmoothing step.1 gs
    (rest.1, match step.2 with
      | some m => m :: rest.2
      | none => rest.2)

/-- The source of a dispatched action. -/
inductive ActionSource where
  | gesture
  | keyboard
deriving DecidableEq, Repr

/-- The reason an action was refused. -/
inductive RefuseReason where
  | cooldown
  | flip_animation
  | repeat_prevention
deriving DecidableEq, Repr

/-- Action types accepted by the dispatcher (the same four states as the
gesture pipeline). -/
abbrev ActionType := GestureType

/-- One entry of the dispatcher's bounded debug log. -/
structure ActionLogEntry where
  action : ActionType
  timestamp : ℤ
  source : ActionSource
deriving DecidableEq, Repr

/-- Dispatcher configuration: cooldown and repeat-prevention windows in
milliseconds and the log bound. -/
structure ActionDispatcherConfig where
  cooldownMs : ℤ
  repeatPreventionMs : ℤ
  maxLogEntries : ℕ
deriving DecidableEq, Repr

/-- The default dispatcher configuration. -/
def defaultDispatcherConfig : ActionDispatcherConfig :=
  { cooldownMs := 1000, repeatPreventionMs := 300, maxLogEntries := 5 }

/-- The mutable state owned by one dispatcher instance. -/
structure ActionDispatcherState where
  lastActionTime : ℤ
  lastActionType : Option ActionType
  actionLog : List ActionLogEntry
deriving DecidableEq, Repr

/-- The dispatcher state created by createActionDispatcher (and restored by
reset). -/
def initialDispatcherState : ActionDispatcherState :=
  { lastActionTime := 0, lastActionType := none, actionLog := [] }

/-- The result returned by dispatch. -/
structure ActionDispatchResult where
  dispatched : Bool
  reason : Option RefuseReason
deriving DecidableEq, Repr

/-- One dispatch attempt: refuse with flip_animation while a flip is in
flight, then with cooldown when too little time has passed since the last
accepted action, then with repeat_prevention for an identical non-REST
action inside the repeat window; otherwise record the action, append it to
the bounded log and accept.  The current time (Date.now() in the source) is
an explicit parameter. -/
def dispatch (config : ActionDispatcherConfig) (state : ActionDispatcherState)
    (action : ActionType) (source : ActionSource) (isFlipping : Bool)
    (now : ℤ) : ActionDispatcherState × ActionDispatchResult :=
  let timeSinceLastAction := now - state.lastActionTime
  if isFlipping then
    (state, ⟨false, some RefuseReason.flip_animation⟩)
  else if timeSinceLastAction < config.cooldownMs then
    (state, ⟨false, some RefuseReason.cooldown⟩)
  else if some action = state.lastActionType ∧ action ≠ REST ∧
      timeSinceLastAction < config.repeatPreventionMs then
    (state, ⟨false, some RefuseReason.repeat_prevention⟩)
  else
    let log1 := state.actionLog ++ [⟨action, now, source⟩]
    let log2 := if log1.length > config.maxLogEntries then log1.drop 1
      else log1
    (⟨now, some action, log2⟩, ⟨true, none⟩)

/-- The per-step averaged samples of one calibration capture step. -/
structure StepAverage where
  dyRight : ℚ
  dyLeft : ℚ
deriving DecidableEq, Repr

/-- The accumulated per-step data of the calibration protocol; a field is
none while its step has not completed. -/
structure CalibrationStepData where
  rest : Option StepAverage
  right : Option StepAverage
  left : Option StepAverage
  both : Option StepAverage
deriving DecidableEq, Repr

/-- Derive the calibration profile from the four step averages: deltas
relative to the rest baseline, clamped at zero, with the both-hands delta
taken as the minimum over the two hands; none while any step is missing. -/
def computeThresholds (stepData : CalibrationStepData) :
    Option CalibrationThresholds :=
  match stepData.rest, stepData.right, stepData.left, stepData.both with
  | some rest, some right, some left, some both =>
      some
        { rightHandUpDelta := max 0 (right.dyRight - rest.dyRight)
          leftHandUpDelta := max 0 (left.dyLeft - rest.dyLeft)
          bothHandsUpDelta :=
            max 0 (min (both.dyRight - rest.dyRight)
              (both.dyLeft - rest.dyLeft))
          calibrated := true }
  | _, _, _, _ => none

end MotionEdu

namespace MotionEdu

open GestureType

/-- Evaluation helper: on a frame that passes the length and visibility
checks, the classifier is the rule ladder over the extracted features and
the calibrated, sensitivity-adjusted thresholds. -/
theorem inferGesture_valid_eq (landmarks : List PoseLandmark)
    (sensitivityFactor : ℚ) (calibration : Option CalibrationThresholds)
    (ls rs lw rw : PoseLandmark)
    (hlen : ¬ landmarks.length < 17)
    (h11 : landmarks[LEFT_SHOULDER]? = some ls)
    (h12 : landmarks[RIGHT_SHOULDER]? = some rs)
    (h15 : landmarks[LEFT_WRIST]? = some lw)
    (h16 : landmarks[RIGHT_WRIST]? = some rw)
    (hv1 : landmarkVisible ls = true) (hv2 : landmarkVisible rs = true)
    (hv3 : landmarkVisible lw = true) (hv4 : landmarkVisible rw = true) :
    inferGestureFromLandmarks landmarks sensitivityFactor calibration =
      classify (extractFeatures ls rs lw rw)
        (adjustThresholds (applyCalibration defaultThresholds calibration)
          sensitivityFactor) := by
  simp only [inferGestureFromLandmarks, if_neg hlen, h11, h12, h15, h16,
    hv1, hv2, hv3, hv4, Bool.and_self, if_true]

/-- Claim C2: whenever the PREV condition (dxRight above its minimum and
absDyRight below its tolerance) and the NEXT condition (dxLeft above its
minimum and absDyLeft below its tolerance) hold simultaneously, the
classifier returns PREV; moreover PREV is checked before NEXT, NEXT before
SELECT, and REST is the fallback. -/
theorem classify_priority_prev_over_next
    (f : GestureFeatures) (t : GestureThresholds)
    (hprev : f.dxRight > t.prevDxRightMin ∧ f.absDyRight < t.prevAbsDyRightMax)
    (_hnext : f.dxLeft > t.nextDxLeftMin ∧ f.absDyLeft < t.nextAbsDyLeftMax) :
    classify f t = PREV ∧
    (∀ g u, (¬ (g.dxRight > u.prevDxRightMin ∧
          g.absDyRight < u.prevAbsDyRightMax)) →
        (g.dxLeft > u.nextDxLeftMin ∧ g.absDyLeft < u.nextAbsDyLeftMax) →
        classify g u = NEXT) ∧
    (∀ g u, (¬ (g.dxRight > u.prevDxRightMin ∧
          g.absDyRight < u.prevAbsDyRightMax)) →
        (¬ (g.dxLeft > u.nextDxLeftMin ∧ g.absDyLeft < u.nextAbsDyLeftMax)) →
        (g.dyRight < u.selectDyThreshold ∧ g.dyLeft < u.selectDyThreshold) →
        classify g u = SELECT) ∧
    (∀ g u, (¬ (g.dxRight > u.prevDxRightMin ∧
          g.absDyRight < u.prevAbsDyRightMax)) →
        (¬ (g.dxLeft > u.nextDxLeftMin ∧ g.absDyLeft < u.nextAbsDyLeftMax)) →
        (¬ (g.dyRight < u.selectDyThreshold ∧
          g.dyLeft < u.selectDyThreshold)) →
        classify g u = REST) := by
  refine ⟨?_, ?_, ?_, ?_⟩
  · simp [classify, hprev]
  · intro g u h1 h2
    simp [classify, h1, h2]
  · intro g u h1 h2 h3
    simp [classify, h1, h2, h3]
  · intro g u h1 h2 h3
    simp [classify, h1, h2, h3]

/-- Witness for C2 at a concrete feature vector and threshold profile that
satisfy both the PREV and the NEXT condition. -/
theorem classify_priority_prev_over_next_witness :
    classify ⟨1, 1, 0, 0, 0, 0⟩ ⟨0, 1, 0, 1, -1⟩ = PREV :=
  (classify_priority_prev_over_next ⟨1, 1, 0, 0, 0, 0⟩ ⟨0, 1, 0, 1, -1⟩
    (by norm_num) (by norm_num)).1

/-- Claim C3: a frame with fewer than 17 entries, or in which one of the four
consumed landmarks is missing or fails the visibility gate, classifies as
REST for every sensitivity factor and calibration state. -/
theorem infer_rest_on_invalid_frame (landmarks : List PoseLandmark)
    (sensitivityFactor : ℚ) (calibration : Option CalibrationThresholds)
    (h : landmarks.length < 17 ∨
      ∃ i ∈ consumedIndices, consumedLandmarkOk landmarks i = false) :
    inferGestureFromLandmarks landmarks sensitivityFactor calibration =
      REST := by
  by_cases hlen : landmarks.length < 17
  · simp [inferGestureFromLandmarks, hlen]
  · rcases h with h | ⟨i, hi, hbad⟩
    · exact absurd h hlen
    · obtain ⟨ls, h11⟩ : ∃ l, landmarks[LEFT_SHOULDER]? = some l := by
        have hb : LEFT_SHOULDER < landmarks.length := by
          unfold LEFT_SHOULDER; omega
        exact ⟨_, List.getElem?_eq_getElem hb⟩
      obtain ⟨rs, h12⟩ : ∃ l, landmarks[RIGHT_SHOULDER]? = some l := by
        have hb : RIGHT_SHOULDER < landmarks.length := by
          unfold RIGHT_SHOULDER; omega
        exact ⟨_, List.getElem?_eq_getElem hb⟩
      obtain ⟨lw, h15⟩ : ∃ l, landmarks[LEFT_WRIST]? = some l := by
        have hb : LEFT_WRIST < landmarks.length := by
          unfold LEFT_WRIST; omega
        exact ⟨_, List.getElem?_eq_getElem hb⟩
      obtain ⟨rw16, h16⟩ : ∃ l, landmarks[RIGHT_WRIST]? = some l := by
        have hb : RIGHT_WRIST < landmarks.length := by
          unfold RIGHT_WRIST; omega
        exact ⟨_, List.getElem?_eq_getElem hb⟩
      simp only [consumedIndices, List.mem_cons, List.not_mem_nil, or_false]
        at hi
      have hvisfalse :
          landmarkVisible ls = false ∨ landmarkVisible rs = false ∨
          landmarkVisible lw = false ∨ landmarkVisible rw16 = false := by
        rcases hi with rfl | rfl | rfl | rfl
        · left; rw [consumedLandmarkOk, h11] at hbad; exact hbad
        · right; left; rw [consumedLandmarkOk, h12] at hbad; exact hbad
        · right; right; left; rw [consumedLandmarkOk, h15] at hbad
          exact hbad
        · right; right; right; rw [consumedLandmarkOk, h16] at hbad
          exact hbad
      simp only [inferGestureFromLandmarks, if_neg hlen, h11, h12, h15, h16]
      rcases hvisfalse with hv | hv | hv | hv <;> simp [hv]

/-- Witness for C3: the empty frame classifies as REST. -/
theorem infer_rest_on_invalid_frame_witness :
    inferGestureFromLandmarks [] 0 none = REST :=
  infer_rest_on_invalid_frame [] 0 none (Or.inl (by simp))

/-- Claim C4: with default sensitivity 0.12 and no calibration override, a
frame whose coordinates all lie in [0,1] and which passes the length and
visibility checks never classifies as SELECT: the adjusted SELECT threshold
is -167/60 (about -2.78) while dyRight and dyLeft are bounded in [-1,1]. -/
theorem infer_select_unreachable_at_default_sensitivity
    (landmarks : List PoseLandmark)
    (hcoords : ∀ l ∈ landmarks, 0 ≤ l.x ∧ l.x ≤ 1 ∧ 0 ≤ l.y ∧ l.y ≤ 1)
    (hlen : ¬ landmarks.length < 17)
    (hok : ∀ i ∈ consumedIndices, consumedLandmarkOk landmarks i = true) :
    inferGestureFromLandmarks landmarks (12/100) none ≠ SELECT := by
  obtain ⟨ls, h11⟩ : ∃ l, landmarks[LEFT_SHOULDER]? = some l := by
    have hb : LEFT_SHOULDER < landmarks.length := by
      unfold LEFT_SHOULDER; omega
    exact ⟨_, List.getElem?_eq_getElem hb⟩
  obtain ⟨rs, h12⟩ : ∃ l, landmarks[RIGHT_SHOULDER]? = some l := by
    have hb : RIGHT_SHOULDER < landmarks.length := by
      unfold RIGHT_SHOULDER; omega
    exact ⟨_, List.getElem?_eq_getElem hb⟩
  obtain ⟨lw, h15⟩ : ∃ l, landmarks[LEFT_WRIST]? = some l := by
    have hb : LEFT_WRIST < landmarks.length := by
      unfold LEFT_WRIST; omega
    exact ⟨_, List.getElem?_eq_getElem hb⟩
  obtain ⟨rw16, h16⟩ : ∃ l, landmarks[RIGHT_WRIST]? = some l := by
    have hb : RIGHT_WRIST < landmarks.length := by
      unfold RIGHT_WRIST; omega
    exact ⟨_, List.getElem?_eq_getElem hb⟩
  have hv11 : landmarkVisible ls = true := by
    have := hok LEFT_SHOULDER (by simp [consumedIndices])
    rwa [consumedLandmarkOk, h11] at this
  have hv12 : landmarkVisible rs = true := by
    have := hok RIGHT_SHOULDER (by simp [consumedIndices])
    rwa [consumedLandmarkOk, h12] at this
  have hv15 : landmarkVisible lw = true := by
    have := hok LEFT_WRIST (by simp [consumedIndices])
    rwa [consumedLandmarkOk, h15] at this
  have hv16 : landmarkVisible rw16 = true := by
    have := hok RIGHT_WRIST (by simp [consumedIndices])
    rwa [consumedLandmarkOk, h16] at this
  have hrs := hcoords rs (List.getElem?_mem h12)
  have hrw := hcoords rw16 (List.getElem?_mem h16)
  have hthr :
      (adjustThresholds (applyCalibration defaultThresholds none)
        (12/100)).selectDyThreshold = -167/60 := by
    norm_num [adjustThresholds, applyCalibration, defaultThresholds,
      thresholdMultiplier, SELECT_DY_THRESHOLD, max_def]
  rw [inferGesture_valid_eq landmarks (12/100) none ls rs lw rw16 hlen
    h11 h12 h15 h16 hv11 hv12 hv15 hv16]
  unfold classify
  split_ifs with hc1 hc2 hc3
  · exact fun hcontra => by cases hcontra
  · exact fun hcontra => by cases hcontra
  · exfalso
    rw [hthr] at hc3
    have hdy : (extractFeatures ls rs lw rw16).dyRight =
        rs.y - rw16.y := rfl
    rw [hdy] at hc3
    have h1 := hc3.1
    linarith [hrs.2.2.1, hrw.2.2.2]
  · exact fun hcontra => by cases hcontra

/-- Witness for C4: a 17-entry frame of fully-visible landmarks at the frame
centre passes all checks and does not classify as SELECT. -/
theorem infer_select_unreachable_witness :
    inferGestureFromLandmarks (List.replicate 17 neutralLandmark)
      (12/100) none ≠ SELECT :=
  infer_select_unreachable_at_default_sensitivity
    (List.replicate 17 neutralLandmark)
    (by
      intro l hl
      rw [List.eq_of_mem_replicate hl]
      norm_num [neutralLandmark])
    (by simp)
    (by
      intro i hi
      have hv : landmarkVisible neutralLandmark = true := by
        simp [landmarkVisible, neutralLandmark, MIN_VISIBILITY]
        norm_num
      fin_cases hi <;>
        simp [consumedLandmarkOk, List.getElem?_replicate, LEFT_SHOULDER,
          RIGHT_SHOULDER, LEFT_WRIST, RIGHT_WRIST, hv])

/-- Claim C1, evaluated on the code: the multiplier at sensitivity 0.12 is
25/3 (about 8.33) against 1 at sensitivity 1.0, and because the code
multiplies each threshold by this multiplier, every adjusted threshold at
0.12 is strictly LARGER in magnitude than at 1.0 — not smaller as the
specification states; consequently the demo frame classifies as NEXT at
sensitivity 1.0 but as REST at sensitivity 0.12, i.e. lowering the
sensitivity factor makes the NEXT gesture harder, not easier, to trigger. -/
theorem sensitivity_scaling_code_result :
    thresholdMultiplier (12/100) = 25/3 ∧
    thresholdMultiplier 1 = 1 ∧
    |(adjustThresholds defaultThresholds (12/100)).prevDxRightMin| >
      |(adjustThresholds defaultThresholds 1).prevDxRightMin| ∧
    |(adjustThresholds defaultThresholds (12/100)).prevAbsDyRightMax| >
      |(adjustThresholds defaultThresholds 1).prevAbsDyRightMax| ∧
    |(adjustThresholds defaultThresholds (12/100)).nextDxLeftMin| >
      |(adjustThresholds defaultThresholds 1).nextDxLeftMin| ∧
    |(adjustThresholds defaultThresholds (12/100)).nextAbsDyLeftMax| >
      |(adjustThresholds defaultThresholds 1).nextAbsDyLeftMax| ∧
    |(adjustThresholds defaultThresholds (12/100)).selectDyThreshold| >
      |(adjustThresholds defaultThresholds 1).selectDyThreshold| ∧
    inferGestureFromLandmarks sensitivityDemoFrame 1 none = NEXT ∧
    inferGestureFromLandmarks sensitivityDemoFrame (12/100) none = REST := by
  have hm : thresholdMultiplier (12/100) = 25/3 := by
    norm_num [thresholdMultiplier, max_def]
  have hm1 : thresholdMultiplier 1 = 1 := by
    norm_num [thresholdMultiplier, max_def]
  have hlen : ¬ sensitivityDemoFrame.length < 17 := by
    simp [sensitivityDemoFrame]
  have h11 : sensitivityDemoFrame[LEFT_SHOULDER]? =
      some ⟨6/10, 1/2, none, some 1⟩ := rfl
  have h12 : sensitivityDemoFrame[RIGHT_SHOULDER]? =
      some ⟨9/10, 1/2, none, some 1⟩ := rfl
  have h15 : sensitivityDemoFrame[LEFT_WRIST]? =
      some ⟨5/10, 1/2, none, some 1⟩ := rfl
  have h16 : sensitivityDemoFrame[RIGHT_WRIST]? =
      some ⟨1/10, 1/2, none, some 1⟩ := rfl
  have hvn : ∀ q : ℚ, landmarkVisible ⟨q, 1/2, none, some 1⟩ = true := by
    intro q
    simp [landmarkVisible, MIN_VISIBILITY]
    norm_num
  have heval1 := inferGesture_valid_eq sensitivityDemoFrame 1 none
    ⟨6/10, 1/2, none, some 1⟩ ⟨9/10, 1/2, none, some 1⟩
    ⟨5/10, 1/2, none, some 1⟩ ⟨1/10, 1/2, none, some 1⟩
    hlen h11 h12 h15 h16 (hvn _) (hvn _) (hvn _) (hvn _)
  have heval2 := inferGesture_valid_eq sensitivityDemoFrame (12/100) none
    ⟨6/10, 1/2, none, some 1⟩ ⟨9/10, 1/2, none, some 1⟩
    ⟨5/10, 1/2, none, some 1⟩ ⟨1/10, 1/2, none, some 1⟩
    hlen h11 h12 h15 h16 (hvn _) (hvn _) (hvn _) (hvn _)
  refine ⟨hm, hm1, ?_, ?_, ?_, ?_, ?_, ?_, ?_⟩
  · simp only [adjustThresholds, defaultThresholds, hm, hm1,
      PREV_DX_RIGHT_MIN]
    rw [abs_of_nonpos (by norm_num), abs_of_nonpos (by norm_num)]
    norm_num
  · simp only [adjustThresholds, defaultThresholds, hm, hm1,
      PREV_ABS_DY_RIGHT_MAX]
    rw [abs_of_nonneg (by norm_num), abs_of_nonneg (by norm_num)]
    norm_num
  · simp only [adjustThresholds, defaultThresholds, hm, hm1,
      NEXT_DX_LEFT_MIN]
    rw [abs_of_nonneg (by norm_num), abs_of_nonneg (by norm_num)]
    norm_num
  · simp only [adjustThresholds, defaultThresholds, hm, hm1,
      NEXT_ABS_DY_LEFT_MAX]
    rw [abs_of_nonneg (by norm_num), abs_of_nonneg (by norm_num)]
    norm_num
  · simp only [adjustThresholds, defaultThresholds, hm, hm1,
      SELECT_DY_THRESHOLD]
    rw [abs_of_nonpos (by norm_num), abs_of_nonpos (by norm_num)]
    norm_num
  · rw [heval1]
    norm_num [classify, extractFeatures, adjustThresholds, applyCalibration,
      defaultThresholds, thresholdMultiplier, max_def, NEXT_DX_LEFT_MIN,
      NEXT_ABS_DY_LEFT_MAX, PREV_DX_RIGHT_MIN, PREV_ABS_DY_RIGHT_MAX,
      SELECT_DY_THRESHOLD, abs_zero]
  · rw [heval2]
    norm_num [classify, extractFeatures, adjustThresholds, applyCalibration,
      defaultThresholds, thresholdMultiplier, max_def, NEXT_DX_LEFT_MIN,
      NEXT_ABS_DY_LEFT_MAX, PREV_DX_RIGHT_MIN, PREV_ABS_DY_RIGHT_MAX,
      SELECT_DY_THRESHOLD, abs_zero]

/-- Claim C5: on every non-empty history the majority vote returns a state
with the highest occurrence count, breaking ties by the enumeration order
REST, NEXT, PREV, SELECT, and the 2-2 tie [NEXT, PREV, NEXT, PREV] resolves
to NEXT. -/
theorem computeMajorityGesture_max_tiebreak (history : List GestureType)
    (hne : history ≠ []) :
    (∃ m, computeMajorityGesture history = some m ∧
      (∀ g, history.count g ≤ history.count m) ∧
      (∀ g, history.count g = history.count m →
        enumIndex m ≤ enumIndex g)) ∧
    computeMajorityGesture [NEXT, PREV, NEXT, PREV] = some NEXT := by
  constructor
  · simp only [computeMajorityGesture, if_neg hne, enumOrder,
      List.foldl_cons, List.foldl_nil]
    split_ifs <;> dsimp only at * <;>
      refine ⟨_, rfl, ?_, ?_⟩ <;>
        first
          | (intro g; cases g <;> omega)
          | (intro g hg; cases g <;> simp only [enumIndex] at * <;> omega)
  · decide

/-- Witness for C5 at the concrete tied history. -/
theorem computeMajorityGesture_max_tiebreak_witness :
    computeMajorityGesture [NEXT, PREV, NEXT, PREV] = some NEXT :=
  (computeMajorityGesture_max_tiebreak [NEXT, PREV, NEXT, PREV]
    (by decide)).2

/-- The smoothing state after one frame carries the pushed history. -/
theorem processRawGesture_history (s : SmoothState) (g : GestureType) :
    (processRawGesture s g).1.history = pushHistory s.history g := by
  unfold processRawGesture
  dsimp only
  split <;> rfl

/-- An emission requires a long-enough history whose majority differs from
the accepted gesture. -/
theorem smoothingEmission_some (s : SmoothState) (h2 : List GestureType)
    (m : GestureType) (h : smoothingEmission s h2 = some m) :
    MIN_HISTORY_LENGTH ≤ h2.length ∧ computeMajorityGesture h2 = some m ∧
      m ≠ s.current := by
  unfold smoothingEmission at h
  split_ifs at h with hmin
  · obtain ⟨m', hmaj⟩ : ∃ m', computeMajorityGesture h2 = some m' := by
      cases hx : computeMajorityGesture h2
      · rw [hx] at h; simp at h
      · exact ⟨_, rfl⟩
    rw [hmaj] at h
    dsimp only at h
    by_cases hne : m' = s.current
    · simp [hne] at h
    · rw [if_pos hne] at h
      obtain rfl := Option.some_inj.mp h
      exact ⟨hmin, hmaj, hne⟩

/-- Claim C6: the smoothing buffer is edge-triggered.  The history stays
bounded at MAX_HISTORY_LENGTH = 7 with front eviction; an emission happens
only when the post-append history has at least MIN_HISTORY_LENGTH = 4
entries and its majority differs from the accepted gesture (which then
becomes the emitted majority); and feeding the same raw gesture 7 times in
a row after an initial transition yields exactly one emission. -/
theorem smoothing_edge_triggered :
    (∀ (s : SmoothState) (g : GestureType),
      s.history.length ≤ MAX_HISTORY_LENGTH →
      (processRawGesture s g).1.history.length ≤ MAX_HISTORY_LENGTH) ∧
    (∀ (s : SmoothState) (g m : GestureType),
      (processRawGesture s g).2 = some m →
      m ≠ s.current ∧
      MIN_HISTORY_LENGTH ≤ (processRawGesture s g).1.history.length ∧
      computeMajorityGesture (processRawGesture s g).1.history = some m ∧
      (processRawGesture s g).1.current = m) ∧
    (∀ g h : GestureType, g ≠ h →
      ((runSmoothing ⟨List.replicate 7 h, h⟩
        (List.replicate 7 g)).2).length = 1) := by
  refine ⟨?_, ?_, ?_⟩
  · intro s g hlen
    rw [processRawGesture_history]
    unfold pushHistory
    dsimp only
    split_ifs with hgt
    · simp only [List.length_drop, List.length_append, List.length_cons,
        List.length_nil]
      omega
    · simp only [List.length_append, List.length_cons, List.length_nil]
        at hgt ⊢
      omega
  · intro s g m hemit
    unfold processRawGesture at hemit ⊢
    dsimp only at hemit ⊢
    rcases he : smoothingEmission s (pushHistory s.history g) with _ | m'
    · rw [he] at hemit
      dsimp only at hemit
      exact absurd hemit (by simp)
    · rw [he] at hemit
      dsimp only at hemit ⊢
      obtain rfl := Option.some_inj.mp hemit
      obtain ⟨hmin, hmaj, hne⟩ := smoothingEmission_some s _ m' he
      exact ⟨hne, hmin, hmaj, rfl⟩
  · decide

/-- Witness for C6: the bound, the edge-trigger and the single-emission run
instantiated at concrete states. -/
theorem smoothing_edge_triggered_witness :
    (processRawGesture ⟨[], REST⟩ NEXT).1.history.length ≤
      MAX_HISTORY_LENGTH ∧
    ((runSmoothing ⟨List.replicate 7 REST, REST⟩
      (List.replicate 7 NEXT)).2).length = 1 :=
  ⟨smoothing_edge_triggered.1 ⟨[], REST⟩ NEXT (by decide),
    smoothing_edge_triggered.2.2 NEXT REST (by decide)⟩

/-- An accepted dispatch stamps the dispatcher clock with the call time. -/
theorem dispatch_accept_time (cfg : ActionDispatcherConfig)
    (s : ActionDispatcherState) (a : ActionType) (src : ActionSource)
    (f : Bool) (now : ℤ)
    (hacc : (dispatch cfg s a src f now).2.dispatched = true) :
    (dispatch cfg s a src f now).1.lastActionTime = now := by
  unfold dispatch at hacc ⊢
  dsimp only at hacc ⊢
  split_ifs at hacc ⊢ <;> rfl

/-- A refused dispatch leaves the dispatcher state untouched. -/
theorem dispatch_refuse_preserves (cfg : ActionDispatcherConfig)
    (s : ActionDispatcherState) (a : ActionType) (src : ActionSource)
    (f : Bool) (now : ℤ)
    (h : (dispatch cfg s a src f now).2.dispatched = false) :
    (dispatch cfg s a src f now).1 = s := by
  unfold dispatch at h ⊢
  dsimp only at h ⊢
  split_ifs at h ⊢ <;> rfl

/-- Claim C7: after an accepted dispatch at time t, any call with the flip
lock released and less than cooldownMs elapsed is refused with reason
cooldown and leaves the state (hence the clock) unchanged; concretely, with
the default 1000 ms cooldown, follow-up NEXT dispatches 400 ms and 800 ms
after an accepted dispatch are both refused with reason cooldown. -/
theorem dispatch_cooldown_refusal :
    (∀ (cfg : ActionDispatcherConfig) (s : ActionDispatcherState)
      (a a' : ActionType) (src src' : ActionSource) (t now : ℤ),
      (dispatch cfg s a src false t).2.dispatched = true →
      now - t < cfg.cooldownMs →
      dispatch cfg (dispatch cfg s a src false t).1 a' src' false now =
        ((dispatch cfg s a src false t).1,
          ⟨false, some RefuseReason.cooldown⟩)) ∧
    ((dispatch defaultDispatcherConfig initialDispatcherState NEXT
        ActionSource.gesture false 5000).2.dispatched = true ∧
      (dispatch defaultDispatcherConfig
        (dispatch defaultDispatcherConfig initialDispatcherState NEXT
          ActionSource.gesture false 5000).1 NEXT ActionSource.gesture false
        5400).2 = ⟨false, some RefuseReason.cooldown⟩ ∧
      (dispatch defaultDispatcherConfig
        (dispatch defaultDispatcherConfig
          (dispatch defaultDispatcherConfig initialDispatcherState NEXT
            ActionSource.gesture false 5000).1 NEXT ActionSource.gesture
          false 5400).1 NEXT ActionSource.gesture false 5800).2 =
        ⟨false, some RefuseReason.cooldown⟩) := by
  constructor
  · intro cfg s a a' src src' t now hacc hlt
    have ht := dispatch_accept_time cfg s a src false t hacc
    conv_lhs => rw [dispatch]
    rw [ht]
    simp [hlt]
  · refine ⟨by decide, by decide, by decide⟩

/-- Witness for C7: the general cooldown refusal instantiated on the default
configuration 600 ms after an accepted dispatch. -/
theorem dispatch_cooldown_refusal_witness :
    dispatch defaultDispatcherConfig
      (dispatch defaultDispatcherConfig initialDispatcherState NEXT
        ActionSource.gesture false 5000).1 PREV ActionSource.keyboard false
      5600 =
      ((dispatch defaultDispatcherConfig initialDispatcherState NEXT
        ActionSource.gesture false 5000).1,
        ⟨false, some RefuseReason.cooldown⟩) :=
  dispatch_cooldown_refusal.1 defaultDispatcherConfig
    initialDispatcherState NEXT PREV ActionSource.gesture
    ActionSource.keyboard 5000 5600 (by decide) (by decide)

/-- Claim C8: whenever the configuration has repeatPreventionMs at most
cooldownMs (as the defaults 300 and 1000 do), no dispatch call can be
refused with reason repeat_prevention: the cooldown check runs first and
already covers the repeat window. -/
theorem dispatch_repeat_prevention_unreachable
    (cfg : ActionDispatcherConfig)
    (hle : cfg.repeatPreventionMs ≤ cfg.cooldownMs)
    (s : ActionDispatcherState) (a : ActionType) (src : ActionSource)
    (f : Bool) (now : ℤ) :
    (dispatch cfg s a src f now).2.reason ≠
      some RefuseReason.repeat_prevention := by
  unfold dispatch
  dsimp only
  split_ifs with h1 h2 h3 h4
  · simp
  · simp
  · exfalso
    obtain ⟨-, -, hlt⟩ := h3
    omega
  · simp
  · simp

/-- Witness for C8 at the default configuration and a concrete call. -/
theorem dispatch_repeat_prevention_unreachable_witness :
    (dispatch defaultDispatcherConfig initialDispatcherState NEXT
      ActionSource.gesture false 0).2.reason ≠
      some RefuseReason.repeat_prevention :=
  dispatch_repeat_prevention_unreachable defaultDispatcherConfig
    (by decide) initialDispatcherState NEXT ActionSource.gesture false 0

/-- Claim C10: every refused dispatch is atomic — whenever dispatched is
false the dispatcher state (clock, last action type, log) after the call is
exactly the state before it. -/
theorem dispatch_refusal_atomic (cfg : ActionDispatcherConfig)
    (s : ActionDispatcherState) (a : ActionType) (src : ActionSource)
    (f : Bool) (now : ℤ)
    (h : (dispatch cfg s a src f now).2.dispatched = false) :
    (dispatch cfg s a src f now).1 = s :=
  dispatch_refuse_preserves cfg s a src f now h

/-- Witness for C10: a flip-locked call is refused and preserves the
initial state. -/
theorem dispatch_refusal_atomic_witness :
    (dispatch defaultDispatcherConfig initialDispatcherState NEXT
      ActionSource.gesture true 0).2.dispatched = false ∧
    (dispatch defaultDispatcherConfig initialDispatcherState NEXT
      ActionSource.gesture true 0).1 = initialDispatcherState :=
  ⟨by decide,
    dispatch_refusal_atomic defaultDispatcherConfig initialDispatcherState
      NEXT ActionSource.gesture true 0 (by decide)⟩

/-- Claim C9: once all four step averages are present, the emitted
calibration profile is exactly the clamped-delta record with calibrated set,
and all three deltas are non-negative. -/
theorem computeThresholds_formula (rest right left both : StepAverage) :
    computeThresholds ⟨some rest, some right, some left, some both⟩ =
      some
        { rightHandUpDelta := max 0 (right.dyRight - rest.dyRight)
          leftHandUpDelta := max 0 (left.dyLeft - rest.dyLeft)
          bothHandsUpDelta :=
            max 0 (min (both.dyRight - rest.dyRight)
              (both.dyLeft - rest.dyLeft))
          calibrated := true } ∧
    (∀ t, computeThresholds ⟨some rest, some right, some left, some both⟩ =
        some t →
      0 ≤ t.rightHandUpDelta ∧ 0 ≤ t.leftHandUpDelta ∧
        0 ≤ t.bothHandsUpDelta ∧ t.calibrated = true) := by
  constructor
  · rfl
  · intro t ht
    unfold computeThresholds at ht
    dsimp only at ht
    obtain rfl := Option.some_inj.mp ht
    exact ⟨le_max_left 0 _, le_max_left 0 _, le_max_left 0 _, rfl⟩

/-- Witness for C9 at the four concrete step averages of the specification's
calibration example. -/
theorem computeThresholds_formula_witness :
    0 ≤ (CalibrationThresholds.mk (max 0 ((3:ℚ)/10 - 0))
        (max 0 ((28:ℚ)/100 - 0))
        (max 0 (min ((25:ℚ)/100 - 0) ((22:ℚ)/100 - 0)))
        true).rightHandUpDelta ∧
    0 ≤ (CalibrationThresholds.mk (max 0 ((3:ℚ)/10 - 0))
        (max 0 ((28:ℚ)/100 - 0))
        (max 0 (min ((25:ℚ)/100 - 0) ((22:ℚ)/100 - 0)))
        true).leftHandUpDelta ∧
    0 ≤ (CalibrationThresholds.mk (max 0 ((3:ℚ)/10 - 0))
        (max 0 ((28:ℚ)/100 - 0))
        (max 0 (min ((25:ℚ)/100 - 0) ((22:ℚ)/100 - 0)))
        true).bothHandsUpDelta ∧
    (CalibrationThresholds.mk (max 0 ((3:ℚ)/10 - 0))
        (max 0 ((28:ℚ)/100 - 0))
        (max 0 (min ((25:ℚ)/100 - 0) ((22:ℚ)/100 - 0)))
        true).calibrated = true :=
  (computeThresholds_formula ⟨0, 0⟩ ⟨3/10, 0⟩ ⟨0, 28/100⟩
    ⟨25/100, 22/100⟩).2 _ rfl

end MotionEdu
